import Mathlib

/-!
Shallow embedding of the countdown / session-controller core of the
eye-gymnastics repository (src/src/hooks/useCountdown.ts and
src/src/hooks/useExerciseController.ts), together with theorems settling
the spec claims about it.

Modelling conventions:
* Wall-clock instants (`Date.now()`, target timestamps) are `Int`
  (epoch milliseconds).  JavaScript numeric durations entering the code
  are `Int`; `toPositiveInteger` normalises them exactly as the source's
  `toPositiveInteger` does on integral inputs (the `Number.isFinite`
  guard of the source only matters for non-integral floats, which the
  claims never exercise).
* React state/refs of one `useCountdown` instance are collapsed into a
  `CountdownState` record; the scheduled interval and the pending
  auto-restart timeout are modelled as the booleans `intervalActive` and
  `restartPending` (scheduling handles carry no other observable data).
* The localStorage records a countdown instance owns (`<key>` and
  `<key>:meta`) are carried in the same record (`storedSeconds`,
  `storedMeta`); `hasKey` mirrors whether `options.storageKey` was
  supplied.  Storage faults are out of the model (the source swallows
  them and the claims do not mention them).
* `tick`/`start` return the completion-callback event they emit
  (`Option Nat`, carrying the in-memory `remainingSeconds` at the moment
  the callback is invoked); invoking the callback itself is the session
  controller's job and is modelled at the controller layer.
-/

namespace EyeGym

/-- `toPositiveInteger` of useCountdown.ts on an integral input:
`Math.max(0, Math.floor(value))`. -/
def toPositiveInteger (value : Int) : Nat :=
  value.toNat

/-- `Math.max(0, Math.ceil((target - now) / 1000))`, the remaining-seconds
formula used by `tick`, `computeRemainingFromTarget` and
`computeInitialRemaining`.  For a positive difference the JavaScript
ceiling of `diff / 1000` is `(diff + 999) / 1000` in natural division. -/
def remainingFrom (target now : Int) : Nat :=
  if target ≤ now then 0 else ((target - now).toNat + 999) / 1000

/-- The persisted `<key>:meta` record (`PersistedCountdownMeta`). -/
structure PersistedCountdownMeta where
  targetTimestamp : Option Int
  isRunning : Bool
  lastUpdated : Int
  deriving Repr, DecidableEq

/-- In-memory state of one `useCountdown` instance, together with the
storage records it owns. -/
structure CountdownState where
  duration : Nat
  target : Option Int
  remaining : Nat
  isRunning : Bool
  intervalActive : Bool
  restartPending : Bool
  autoRestart : Bool
  hasKey : Bool
  storedSeconds : Option Nat
  storedMeta : Option PersistedCountdownMeta
  deriving Repr, DecidableEq

namespace Countdown

/-- `persistState(nextRemaining, nextIsRunning)`: writes `<key>` and
`<key>:meta` (reading `targetTimestampRef.current` at call time) when a
storage key is configured, else does nothing. -/
def persistState (now : Int) (r : Nat) (run : Bool) (s : CountdownState) :
    CountdownState :=
  if s.hasKey then
    { s with storedSeconds := some r
             storedMeta := some ⟨s.target, run, now⟩ }
  else s

/-- One evaluation (`tick`).  Returns the updated state and, when the
target has passed, the completion event carrying `remainingSeconds` at
the moment the completion callback is invoked. -/
def tick (now : Int) (s : CountdownState) : CountdownState × Option Nat :=
  match s.target with
  | none => (s, none)
  | some target =>
      let nextValue := remainingFrom target now
      let s := { s with remaining := nextValue }
      if target ≤ now then
        let s := { s with intervalActive := false, target := none,
                          isRunning := false }
        let s := persistState now 0 false s
        let s := if s.autoRestart then { s with restartPending := true } else s
        (s, some nextValue)
      else
        (s, none)

/-- The body of `start` after the duration argument has been defaulted
and normalised (`toPositiveInteger(durationSeconds ?? durationRef.current)`).
Ends with the synchronous `tick()` the source performs, whose completion
event (fired immediately when the duration is zero) is returned. -/
def startD (now : Int) (duration : Nat) (s : CountdownState) :
    CountdownState × Option Nat :=
  let target := now + (duration : Int) * 1000
  let s := { s with duration := duration
                    intervalActive := false
                    restartPending := false
                    target := some target
                    remaining := min duration (remainingFrom target now)
                    isRunning := true }
  let s := persistState now duration true s
  let s := { s with intervalActive := true }
  tick now s

/-- `start(durationSeconds?)`. -/
def start (now : Int) (durationSeconds : Option Int) (s : CountdownState) :
    CountdownState × Option Nat :=
  startD now
    (match durationSeconds with
      | some v => toPositiveInteger v
      | none => s.duration) s

/-- The statements of `stop()` after its initial `tick()`: cancel the
interval and any pending auto-restart, clear the target, stop, persist
the current remaining.  Split out because the completion callback the
initial `tick()` can fire runs re-entrantly *before* these statements —
the controller layer interleaves the registered callback between `tick`
and this function. -/
def stopAfterTick (now : Int) (s : CountdownState) : CountdownState :=
  let s := { s with intervalActive := false, restartPending := false,
                    target := none, isRunning := false }
  persistState now s.remaining false s

/-- `stop()`: one final `tick()` (whose completion event, delivered
synchronously to the registered callback in the source, is returned),
then the remaining stop statements. -/
def stop (now : Int) (s : CountdownState) : CountdownState × Option Nat :=
  (stopAfterTick now (tick now s).1, (tick now s).2)

/-- `reset(durationSeconds?)`. -/
def reset (now : Int) (durationSeconds : Option Int) (s : CountdownState) :
    CountdownState :=
  let duration : Nat := match durationSeconds with
    | some v => toPositiveInteger v
    | none => s.duration
  let s := { s with duration := duration
                    intervalActive := false
                    restartPending := false
                    target := none
                    isRunning := false
                    remaining := duration }
  persistState now duration false s

/-- Run `tick` at each clock value in order, collecting the completion
events (each carries the in-memory remaining value at the moment the
completion callback is invoked). -/
def runTicks : CountdownState → List Int → CountdownState × List Nat
  | s, [] => (s, [])
  | s, t :: ts =>
      let p := tick t s
      let q := runTicks p.1 ts
      (q.1, p.2.toList ++ q.2)

end Countdown

/-- JavaScript truthiness of `persistedMeta?.targetTimestamp` as used by
`computeInitialRemaining` and the initial `isRunning` computation:
the value is kept only when the meta record exists and its target is
non-null and non-zero. -/
def truthyTarget : Option PersistedCountdownMeta → Option Int
  | none => none
  | some m =>
      match m.targetTimestamp with
      | none => none
      | some t => if t = 0 then none else some t

/-- `computeInitialRemaining` of `useCountdown` (the `dur` argument is the
already-normalised initial duration). -/
def computeInitialRemaining (now : Int) (dur : Nat)
    (persistedSeconds : Option Nat) (persistedMeta : Option PersistedCountdownMeta) :
    Nat :=
  match truthyTarget persistedMeta with
  | some t => min (remainingFrom t now) dur
  | none =>
      match persistedSeconds with
      | some s => min s dur
      | none => dur

/-- The initialiser of the `isRunning` state of `useCountdown`. -/
def initialIsRunning (now : Int) (persistedMeta : Option PersistedCountdownMeta) :
    Bool :=
  match persistedMeta with
  | none => false
  | some m =>
      match truthyTarget (some m) with
      | some t => if t ≤ now then false else m.isRunning
      | none => m.isRunning

/-- Construction of a `useCountdown` instance from the persisted records
(`targetTimestampRef` is initialised with nullish coalescing, so a stored
target of `0` does populate the ref even though the truthiness-based
initial-remaining computation ignores it). -/
def initCountdown (now : Int) (initialDurationSeconds : Int)
    (persistedSeconds : Option Nat) (persistedMeta : Option PersistedCountdownMeta)
    (autoRestart hasKey : Bool) : CountdownState :=
  let d := toPositiveInteger initialDurationSeconds
  { duration := d
    target := persistedMeta.bind (·.targetTimestamp)
    remaining := computeInitialRemaining now d persistedSeconds persistedMeta
    isRunning := initialIsRunning now persistedMeta
    intervalActive := false
    restartPending := false
    autoRestart := autoRestart
    hasKey := hasKey
    storedSeconds := persistedSeconds
    storedMeta := persistedMeta }

/-- The `CountdownSnapshot` record returned by `readCountdownSnapshot`. -/
structure CountdownSnapshot where
  remainingSeconds : Nat
  targetTimestamp : Option Int
  isRunning : Bool
  lastUpdated : Option Int
  deriving Repr, DecidableEq

/-- `readCountdownSnapshot(storageKey, fallbackSeconds)`, reading the same
two records; pure — it returns a snapshot and leaves storage untouched. -/
def readCountdownSnapshot (now : Int) (persistedSeconds : Option Nat)
    (persistedMeta : Option PersistedCountdownMeta) (fallbackSeconds : Int) :
    CountdownSnapshot :=
  let normalizedFallback := toPositiveInteger fallbackSeconds
  let baseline := match persistedSeconds with
    | some s => min s normalizedFallback
    | none => normalizedFallback
  let targetTimestamp := persistedMeta.bind (·.targetTimestamp)
  let remainingSeconds := match targetTimestamp with
    | some t => min (remainingFrom t now) normalizedFallback
    | none => baseline
  let isRunning := match targetTimestamp with
    | some t =>
        if now < t then (persistedMeta.map (·.isRunning)).getD false else false
    | none => false
  { remainingSeconds := remainingSeconds
    targetTimestamp := targetTimestamp
    isRunning := isRunning
    lastUpdated := persistedMeta.map (·.lastUpdated) }

/-!
Session controller (useExerciseController.ts).

* The phase is carried as a `String`, mirroring the source: hydration
  adopts `parsedState.phase` with only a JavaScript-truthiness check, so
  strings outside `idle`/`work`/`break` can reach the state.
* External side effects (notification, sounds) are returned as event
  lists; `audioEnabled` mirrors `options.enableAudio ?? true`.
* A work/break countdown completion runs the callback the controller
  registered via `setOnComplete`.  This includes the `tick()` at the
  start of `stop()`: `stopWorkTimer`/`stopBreakTimer` run the registered
  callback re-entrantly between that tick and the remaining stop
  statements, exactly as the source does — so a stop on a timer whose
  target has already passed fires the completion side effects, and the
  break-complete callback's `startWorkTimer` survives the enclosing
  break-stop.  `start` calls issued inside controller operations drop
  the completion event of their own synchronous `tick`; such an event is
  only possible for a zero duration, where the source would re-enter the
  registered callback, so for the positive durations the spec admits the
  model is exact.
* The composite `exercise:<id>:state` record is `sessionStored`; the
  React persist effect is the `persistStep` operation, and
  `persistedStateHydratedRef` is the `hydrated` flag.
* The mount/config-change effect (stop both timers, clear `breakDue`,
  phase `idle`, un-hydrate) is `configReset`; the source runs it before
  the hydration effect, so the `hydrate` operation applies it first.
-/

/-- The relevant fields of the `Exercise` configuration. -/
structure Exercise where
  workDurationSeconds : Int
  breakDurationSeconds : Int
  deriving Repr, DecidableEq

/-- The composite persisted record `exercise:<id>:state`
(`PersistedExerciseState`). -/
structure PersistedExerciseState where
  phase : String
  breakDue : Bool
  workRunning : Bool
  breakRunning : Bool
  workSeconds : Nat
  breakSeconds : Nat
  deriving Repr, DecidableEq

/-- A successfully JSON-parsed composite record, as the hydration effect
sees it (`Partial<PersistedExerciseState>` — every field may be absent,
and no range validation is performed on any of them). -/
structure HydrationRecord where
  phase : Option String
  breakDue : Option Bool
  workRunning : Option Bool
  breakRunning : Option Bool
  workSeconds : Option Int
  breakSeconds : Option Int
  deriving Repr, DecidableEq

/-- Fire-and-forget side effects of the controller. -/
inductive CEvent where
  | notified
  | soundFocus
  | soundBreak
  deriving Repr, DecidableEq

/-- State of one `useExerciseController` instance. -/
structure ControllerState where
  phase : String
  breakDue : Bool
  workTimer : CountdownState
  breakTimer : CountdownState
  hydrated : Bool
  audioEnabled : Bool
  sessionStored : Option PersistedExerciseState
  deriving Repr, DecidableEq

namespace Controller

/-- `notifyBreak`: send the notification, play the focus-complete sound
when audio is enabled. -/
def notifyBreakEvents (s : ControllerState) : List CEvent :=
  CEvent.notified :: (if s.audioEnabled then [CEvent.soundFocus] else [])

/-- The work countdown's completion callback (registered via
`setWorkOnComplete`): latch `breakDue`, notify, restart the work timer at
the full configured duration. -/
def applyWorkComplete (ex : Exercise) (now : Int) (s : ControllerState) :
    ControllerState × List CEvent :=
  let s := { s with breakDue := true }
  let events := notifyBreakEvents s
  let s := { s with
    workTimer := (Countdown.start now (some ex.workDurationSeconds) s.workTimer).1 }
  (s, events)

/-- The break countdown's completion callback (registered via
`setBreakOnComplete`). -/
def applyBreakComplete (ex : Exercise) (now : Int) (s : ControllerState) :
    ControllerState × List CEvent :=
  let s := { s with phase := "work", breakDue := false }
  let s := { s with
    breakTimer := Countdown.reset now (some ex.breakDurationSeconds) s.breakTimer }
  let s := { s with
    workTimer := Countdown.reset now (some ex.workDurationSeconds) s.workTimer }
  let s := { s with
    workTimer := (Countdown.start now (some ex.workDurationSeconds) s.workTimer).1 }
  (s, if s.audioEnabled then [CEvent.soundBreak] else [])

/-- The controller's `stopWorkTimer()`: the countdown's `stop()` whose
initial `tick()` synchronously invokes the registered work-complete
callback when the work target has passed; the callback (which may
restart the work timer) runs before the remaining stop statements, which
then squash any such restart of the same timer. -/
def stopWorkTimer (ex : Exercise) (now : Int) (s : ControllerState) :
    ControllerState × List CEvent :=
  match (Countdown.tick now s.workTimer).2 with
  | none =>
      ({ s with workTimer :=
          Countdown.stopAfterTick now (Countdown.tick now s.workTimer).1 }, [])
  | some _ =>
      ({ (applyWorkComplete ex now
            { s with workTimer := (Countdown.tick now s.workTimer).1 }).1 with
          workTimer := Countdown.stopAfterTick now
            (applyWorkComplete ex now
              { s with workTimer := (Countdown.tick now s.workTimer).1 }).1.workTimer },
        (applyWorkComplete ex now
          { s with workTimer := (Countdown.tick now s.workTimer).1 }).2)

/-- The controller's `stopBreakTimer()`: as `stopWorkTimer`, but the
break-complete callback it can fire starts the *work* timer, which the
enclosing break-stop never clears. -/
def stopBreakTimer (ex : Exercise) (now : Int) (s : ControllerState) :
    ControllerState × List CEvent :=
  match (Countdown.tick now s.breakTimer).2 with
  | none =>
      ({ s with breakTimer :=
          Countdown.stopAfterTick now (Countdown.tick now s.breakTimer).1 }, [])
  | some _ =>
      ({ (applyBreakComplete ex now
            { s with breakTimer := (Countdown.tick now s.breakTimer).1 }).1 with
          breakTimer := Countdown.stopAfterTick now
            (applyBreakComplete ex now
              { s with breakTimer := (Countdown.tick now s.breakTimer).1 }).1.breakTimer },
        (applyBreakComplete ex now
          { s with breakTimer := (Countdown.tick now s.breakTimer).1 }).2)

/-- One evaluation of the work countdown, running the registered
completion callback when it fires. -/
def workTick (ex : Exercise) (now : Int) (s : ControllerState) :
    ControllerState × List CEvent :=
  match (Countdown.tick now s.workTimer).2 with
  | none => ({ s with workTimer := (Countdown.tick now s.workTimer).1 }, [])
  | some _ =>
      applyWorkComplete ex now
        { s with workTimer := (Countdown.tick now s.workTimer).1 }

/-- One evaluation of the break countdown, running the registered
completion callback when it fires. -/
def breakTick (ex : Exercise) (now : Int) (s : ControllerState) :
    ControllerState × List CEvent :=
  match (Countdown.tick now s.breakTimer).2 with
  | none => ({ s with breakTimer := (Countdown.tick now s.breakTimer).1 }, [])
  | some _ =>
      applyBreakComplete ex now
        { s with breakTimer := (Countdown.tick now s.breakTimer).1 }

/-- `startExercise()` (the awaited sound-priming and permission request
are pure side effects outside the model).  The `workRemainingSeconds`
used for the resume target is the value the `useCallback` closure
captured at the last render, i.e. the remaining value at entry — not
anything a completion callback fired by `stopBreakTimer` may have
written in between. -/
def startExercise (ex : Exercise) (now : Int) (s : ControllerState) :
    ControllerState × List CEvent :=
  let captured := s.workTimer.remaining
  let q := stopBreakTimer ex now s
  let s := { q.1 with
    breakTimer := Countdown.reset now (some ex.breakDurationSeconds) q.1.breakTimer }
  let s := { s with phase := "work", breakDue := false }
  let resumeTarget : Int :=
    if 0 < (captured : Int) ∧ (captured : Int) < ex.workDurationSeconds then
      (captured : Int)
    else
      ex.workDurationSeconds
  ({ s with workTimer := (Countdown.start now (some resumeTarget) s.workTimer).1 },
    q.2)

/-- `startBreak()`. -/
def startBreak (ex : Exercise) (now : Int) (s : ControllerState) :
    ControllerState × List CEvent :=
  if s.phase = "idle" then (s, [])
  else
    let s := { s with phase := "break", breakDue := false }
    let q := stopWorkTimer ex now s
    let s := { q.1 with
      workTimer := Countdown.reset now (some ex.workDurationSeconds) q.1.workTimer }
    let s := { s with
      breakTimer := Countdown.reset now (some ex.breakDurationSeconds) s.breakTimer }
    ({ s with
        breakTimer := (Countdown.start now (some ex.breakDurationSeconds) s.breakTimer).1 },
      q.2)

/-- `pause()`. -/
def pause (ex : Exercise) (now : Int) (s : ControllerState) :
    ControllerState × List CEvent :=
  if s.phase ≠ "work" then (s, [])
  else
    let q := stopWorkTimer ex now s
    ({ q.1 with phase := "idle" }, q.2)

/-- `reset` of the controller (`resetExercise`). -/
def resetExercise (ex : Exercise) (now : Int) (s : ControllerState) :
    ControllerState × List CEvent :=
  let q1 := stopWorkTimer ex now s
  let q2 := stopBreakTimer ex now q1.1
  let s := { q2.1 with
    workTimer := Countdown.reset now (some ex.workDurationSeconds) q2.1.workTimer }
  let s := { s with
    breakTimer := Countdown.reset now (some ex.breakDurationSeconds) s.breakTimer }
  ({ s with breakDue := false, phase := "idle" }, q1.2 ++ q2.2)

/-- The mount/config-change effect: un-hydrate, stop both timers (each
stop can fire the corresponding completion callback on a stale expired
persisted target — in particular the break-complete callback starts the
work timer, which the enclosing break-stop never clears), clear
`breakDue`, return to `idle`. -/
def configReset (ex : Exercise) (now : Int) (s : ControllerState) :
    ControllerState × List CEvent :=
  let q1 := stopWorkTimer ex now { s with hydrated := false }
  let q2 := stopBreakTimer ex now q1.1
  ({ q2.1 with breakDue := false, phase := "idle" }, q1.2 ++ q2.2)

/-- `readSeconds`: the snapshot-based fallback used when the composite
record lacks a seconds field. -/
def readSeconds (now : Int) (t : CountdownState) (fallback : Int) : Nat :=
  (readCountdownSnapshot now t.storedSeconds t.storedMeta fallback).remainingSeconds

/-- The hydration effect's `if (parsedState.phase) setPhase(...)` step
(JavaScript truthiness: the empty string is skipped, everything else —
validated or not — is adopted). -/
def applyPhaseField (r : HydrationRecord) (s : ControllerState) :
    ControllerState :=
  match r.phase with
  | some p => if p = "" then s else { s with phase := p }
  | none => s

/-- The hydration effect's
`if (typeof parsedState.breakDue === 'boolean') setBreakDue(...)` step. -/
def applyBreakDueField (r : HydrationRecord) (s : ControllerState) :
    ControllerState :=
  match r.breakDue with
  | some b => { s with breakDue := b }
  | none => s

/-- `parsedState.workSeconds ?? readSeconds(workStorageKey, ...)`. -/
def resumeWorkSeconds (ex : Exercise) (now : Int) (r : HydrationRecord)
    (s : ControllerState) : Int :=
  match r.workSeconds with
  | some v => v
  | none => (readSeconds now s.workTimer ex.workDurationSeconds : Int)

/-- `parsedState.breakSeconds ?? readSeconds(breakStorageKey, ...)`. -/
def resumeBreakSeconds (ex : Exercise) (now : Int) (r : HydrationRecord)
    (s : ControllerState) : Int :=
  match r.breakSeconds with
  | some v => v
  | none => (readSeconds now s.breakTimer ex.breakDurationSeconds : Int)

/-- The resume part of the hydration effect
(`shouldResumeWork` / `shouldResumeBreak` branches). -/
def applyResume (ex : Exercise) (now : Int) (r : HydrationRecord)
    (s : ControllerState) : ControllerState :=
  if r.phase = some "work" ∧ r.workRunning = some true then
    if 0 < resumeWorkSeconds ex now r s then
      { s with workTimer :=
          (Countdown.start now (some (resumeWorkSeconds ex now r s))
            s.workTimer).1 }
    else
      { s with breakDue := true }
  else if r.phase = some "break" ∧ r.breakRunning = some true then
    if 0 < resumeBreakSeconds ex now r s then
      { s with breakTimer :=
          (Countdown.start now (some (resumeBreakSeconds ex now r s))
            s.breakTimer).1 }
    else
      { s with phase := "work", breakDue := false,
               workTimer :=
                 (Countdown.start now (some ex.workDurationSeconds)
                   s.workTimer).1 }
  else s

/-- Body of the hydration effect, given the parse outcome of the
composite record (`none` = record absent or `JSON.parse` threw; in both
cases the source leaves the state alone and only marks hydration done). -/
def hydrateBody (ex : Exercise) (now : Int) (record : Option HydrationRecord)
    (s : ControllerState) : ControllerState :=
  match record with
  | none => { s with hydrated := true }
  | some r =>
      { applyResume ex now r (applyBreakDueField r (applyPhaseField r s))
          with hydrated := true }

/-- Rehydration as it executes in the source: the config-reset effect
runs first (it is declared earlier, and the two re-run together on
mount and on every configuration change), then the hydration effect. -/
def hydrate (ex : Exercise) (now : Int) (record : Option HydrationRecord)
    (s : ControllerState) : ControllerState × List CEvent :=
  (hydrateBody ex now record (configReset ex now s).1, (configReset ex now s).2)

/-- The persist effect: a no-op until hydration has completed, then
writes the composite record. -/
def persistStep (s : ControllerState) : ControllerState :=
  if s.hydrated then
    let payload : PersistedExerciseState :=
      { phase := s.phase
        breakDue := s.breakDue
        workRunning := s.workTimer.isRunning
        breakRunning := s.breakTimer.isRunning
        workSeconds := s.workTimer.remaining
        breakSeconds := s.breakTimer.remaining }
    { s with sessionStored := some payload }
  else s

end Controller

/-- The operations of the session controller, as they can occur after
mount (each carries the `Date.now()` value at which it runs). -/
inductive COp where
  | opStartExercise (now : Int)
  | opStartBreak (now : Int)
  | opPause (now : Int)
  | opReset (now : Int)
  | opHydrate (now : Int) (record : Option HydrationRecord)
  | opWorkTick (now : Int)
  | opBreakTick (now : Int)
  | opPersist
  deriving Repr, DecidableEq

namespace Controller

/-- Apply one operation (events discarded). -/
def applyOp (ex : Exercise) (s : ControllerState) : COp → ControllerState
  | COp.opStartExercise now => (startExercise ex now s).1
  | COp.opStartBreak now => (startBreak ex now s).1
  | COp.opPause now => (pause ex now s).1
  | COp.opReset now => (resetExercise ex now s).1
  | COp.opHydrate now record => (hydrate ex now record s).1
  | COp.opWorkTick now => (workTick ex now s).1
  | COp.opBreakTick now => (breakTick ex now s).1
  | COp.opPersist => persistStep s

/-- Run a list of operations in order. -/
def runOps (ex : Exercise) (s : ControllerState) : List COp → ControllerState
  | [] => s
  | op :: ops => runOps ex (applyOp ex s op) ops

/-- Controller state as constructed (before any effect has run): both
countdowns constructed from their own persisted records — including a
stale expired target in `targetTimestampRef` — phase `idle`, not yet
hydrated.  The mount then runs the config-reset and hydration effects in
order, which is the `opHydrate` operation. -/
def initController (now : Int) (ex : Exercise) (audioEnabled : Bool)
    (workSec : Option Nat) (workMeta : Option PersistedCountdownMeta)
    (breakSec : Option Nat) (breakMeta : Option PersistedCountdownMeta)
    (sessionStored : Option PersistedExerciseState) : ControllerState :=
  { phase := "idle"
    breakDue := false
    workTimer := initCountdown now ex.workDurationSeconds workSec workMeta false true
    breakTimer := initCountdown now ex.breakDurationSeconds breakSec breakMeta false true
    hydrated := false
    audioEnabled := audioEnabled
    sessionStored := sessionStored }

end Controller

/-!  Concrete sample states used to evaluate the theorems. -/

/-- A countdown configured for 5 seconds, resumed at `now = 0` against a
persisted run whose target is 5000 ms. -/
def sampleResumed : CountdownState :=
  initCountdown 0 5 none (some ⟨some 5000, true, 0⟩) false true

/-- A countdown configured for 5 seconds, resumed at `now = 0` against a
stale persisted record from a larger configuration whose target is still
15 s in the future. -/
def sampleStale : CountdownState :=
  initCountdown 0 5 (some 3) (some ⟨some 15000, true, 0⟩) false true

/-- A freshly-constructed 2-second countdown with empty storage. -/
def sampleFresh : CountdownState :=
  initCountdown 0 2 none none false true

/-- A sample exercise configuration: 2 s of work, 1 s of break. -/
def sampleExercise : Exercise := ⟨2, 1⟩

/-- A longer sample configuration: 20 s of work, 10 s of break. -/
def exerciseB : Exercise := ⟨20, 10⟩

/-- A controller for `sampleExercise`, mounted at `now = 0` with empty
storage. -/
def sampleController : ControllerState :=
  Controller.initController 0 sampleExercise true none none none none none

/-- The sample controller right after `startExercise()` at `now = 0`. -/
def sampleWorking : ControllerState :=
  (Controller.startExercise sampleExercise 0 sampleController).1

/-- A controller for `exerciseB`, mounted at `now = 0` with empty
storage. -/
def controllerB : ControllerState :=
  Controller.initController 0 exerciseB true none none none none none

/-- `controllerB` seven seconds into a break started at `now = 0`
(phase `break`, 3 s left on the break countdown). -/
def sampleMidBreak : ControllerState :=
  (Controller.breakTick exerciseB 7000
    (Controller.startBreak exerciseB 0
      (Controller.startExercise exerciseB 0 controllerB).1).1).1

/-- A parseable composite record carrying only a `breakDue` field. -/
def sampleBadRecord : HydrationRecord :=
  ⟨none, some true, none, none, none, none⟩

/-- A persisted break-countdown meta record whose target timestamp has
already passed by the time the controller remounts. -/
def staleBreakMeta : PersistedCountdownMeta := ⟨some 5000, true, 0⟩

/-- A composite session record saying a break was running with 5 s
left. -/
def breakResumeRecord : HydrationRecord :=
  ⟨some "break", some false, none, some true, none, some 5⟩

/-- The controller after remounting at `now = 10000` over
`staleBreakMeta` and rehydrating `breakResumeRecord`: the config-reset
effect's `stopBreakTimer` fires the break-complete callback (the break
target 5000 has passed), which starts the work timer; hydration then
resumes the break timer without stopping work. -/
def mountedStale : ControllerState :=
  (Controller.hydrate exerciseB 10000 (some breakResumeRecord)
    (Controller.initController 10000 exerciseB true none none none
      (some staleBreakMeta) none)).1

/-!  Helper lemmas about the countdown primitive.  -/

namespace Countdown

theorem remainingFrom_of_le {target now : Int} (h : target ≤ now) :
    remainingFrom target now = 0 := by
  simp [remainingFrom, h]

theorem remainingFrom_self_add (now : Int) (d : Nat) :
    remainingFrom (now + (d : Int) * 1000) now = d := by
  unfold remainingFrom
  split <;> omega

@[simp] theorem persistState_target (now : Int) (r : Nat) (b : Bool)
    (s : CountdownState) : (persistState now r b s).target = s.target := by
  unfold persistState; split <;> rfl

@[simp] theorem persistState_remaining (now : Int) (r : Nat) (b : Bool)
    (s : CountdownState) : (persistState now r b s).remaining = s.remaining := by
  unfold persistState; split <;> rfl

@[simp] theorem persistState_isRunning (now : Int) (r : Nat) (b : Bool)
    (s : CountdownState) : (persistState now r b s).isRunning = s.isRunning := by
  unfold persistState; split <;> rfl

@[simp] theorem persistState_duration (now : Int) (r : Nat) (b : Bool)
    (s : CountdownState) : (persistState now r b s).duration = s.duration := by
  unfold persistState; split <;> rfl

@[simp] theorem persistState_autoRestart (now : Int) (r : Nat) (b : Bool)
    (s : CountdownState) : (persistState now r b s).autoRestart = s.autoRestart := by
  unfold persistState; split <;> rfl

theorem tick_target_none {s : CountdownState} (now : Int) (h : s.target = none) :
    tick now s = (s, none) := by
  unfold tick
  rw [h]

theorem tick_not_reached {s : CountdownState} {T : Int} (now : Int)
    (h : s.target = some T) (hlt : ¬ T ≤ now) :
    tick now s = ({ s with remaining := remainingFrom T now }, none) := by
  unfold tick
  rw [h]
  simp [hlt]

theorem tick_reached {s : CountdownState} {T : Int} (now : Int)
    (h : s.target = some T) (hle : T ≤ now) :
    (tick now s).2 = some 0 ∧ (tick now s).1.target = none := by
  unfold tick
  rw [h]
  simp only [hle, if_pos, remainingFrom_of_le hle]
  constructor
  · trivial
  · split <;> simp

theorem runTicks_target_none {s : CountdownState} (ts : List Int)
    (h : s.target = none) : runTicks s ts = (s, []) := by
  induction ts with
  | nil => rfl
  | cons t ts ih =>
      show runTicks s (t :: ts) = (s, [])
      rw [runTicks, tick_target_none t h]
      simpa using ih

theorem runTicks_events_of_reached {T : Int} (ts : List Int) :
    ∀ s : CountdownState, s.target = some T → (∃ t ∈ ts, T ≤ t) →
      (runTicks s ts).2 = [0] := by
  induction ts with
  | nil => intro s _ hex; simp at hex
  | cons t ts ih =>
      intro s h hex
      by_cases hle : T ≤ t
      · obtain ⟨h2, h1⟩ := tick_reached t h hle
        rw [runTicks]
        simp [h2, (runTicks_target_none ts h1)]
      · rw [runTicks, tick_not_reached t h hle]
        simp only [Option.toList_none, List.nil_append]
        refine ih { s with remaining := remainingFrom T t } h ?_
        rcases hex with ⟨u, hu, hTu⟩
        rcases List.mem_cons.mp hu with rfl | hu
        · exact absurd hTu hle
        · exact ⟨u, hu, hTu⟩

/-- `start` with a positive normalised duration: the synchronous `tick`
at the end of `start` does not complete, the target is
`now + duration * 1000`, and the countdown is left running at the full
duration. -/
theorem startD_of_pos (now : Int) (D : Nat) (s : CountdownState)
    (hd : 0 < D) :
    (startD now D s).2 = none ∧
    (startD now D s).1.target = some (now + (D : Int) * 1000) ∧
    (startD now D s).1.isRunning = true ∧
    (startD now D s).1.duration = D ∧
    (startD now D s).1.remaining = D := by
  have hT : ¬ (now + (D : Int) * 1000 ≤ now) := by omega
  cases hk : s.hasKey <;>
    simp [startD, tick, persistState, hk, hT, remainingFrom_self_add]

/-- `start` with a zero normalised duration completes immediately inside
the synchronous `tick`. -/
theorem startD_of_zero (now : Int) (s : CountdownState) :
    (startD now 0 s).2 = some 0 ∧
    (startD now 0 s).1.target = none ∧
    (startD now 0 s).1.isRunning = false := by
  cases hk : s.hasKey <;> cases ar : s.autoRestart <;>
    simp [startD, tick, persistState, remainingFrom, hk, ar]

theorem start_some_eq (now d : Int) (s : CountdownState) :
    start now (some d) s = startD now (toPositiveInteger d) s := rfl

@[simp] theorem stopAfterTick_isRunning (now : Int) (s : CountdownState) :
    (stopAfterTick now s).isRunning = false := by
  simp [stopAfterTick]

@[simp] theorem stopAfterTick_target (now : Int) (s : CountdownState) :
    (stopAfterTick now s).target = none := by
  simp [stopAfterTick]

/-- A tick at an instant strictly before any set target emits no
completion event. -/
theorem tick_event_none_of_future {s : CountdownState} (now : Int)
    (h : ∀ T, s.target = some T → now < T) : (tick now s).2 = none := by
  cases ht : s.target with
  | none => rw [tick_target_none now ht]
  | some T => rw [tick_not_reached now ht (not_le.mpr (h T ht))]

@[simp] theorem reset_isRunning (now : Int) (d? : Option Int)
    (s : CountdownState) : (reset now d? s).isRunning = false := by
  cases d? <;> simp [reset]

@[simp] theorem reset_target (now : Int) (d? : Option Int)
    (s : CountdownState) : (reset now d? s).target = none := by
  cases d? <;> simp [reset]

@[simp] theorem reset_remaining (now : Int) (d : Int) (s : CountdownState) :
    (reset now (some d) s).remaining = toPositiveInteger d := by
  simp [reset]

/-- A tick that emits no completion event leaves `isRunning` and the
target unchanged. -/
theorem tick_no_event {s : CountdownState} {now : Int}
    (h : (tick now s).2 = none) :
    (tick now s).1.isRunning = s.isRunning ∧
    (tick now s).1.target = s.target := by
  cases ht : s.target with
  | none => rw [tick_target_none now ht]; exact ⟨rfl, ht⟩
  | some T =>
      by_cases hle : T ≤ now
      · exact absurd ((tick_reached now ht hle).1) (by simp [h])
      · rw [tick_not_reached now ht hle]
        exact ⟨rfl, ht⟩

/-- A tick that emits a completion event leaves the countdown stopped
with no target, and witnesses that a target was set and had passed. -/
theorem tick_event {s : CountdownState} {now : Int} {v : Nat}
    (h : (tick now s).2 = some v) :
    (tick now s).1.isRunning = false ∧ (tick now s).1.target = none ∧
    ∃ T, s.target = some T ∧ T ≤ now := by
  cases ht : s.target with
  | none => rw [tick_target_none now ht] at h; simp at h
  | some T =>
      by_cases hle : T ≤ now
      · refine ⟨?_, (tick_reached now ht hle).2, T, rfl, hle⟩
        unfold tick
        rw [ht]
        simp only [hle, if_pos]
        cases hk : s.hasKey <;> cases ar : s.autoRestart <;>
          simp [persistState, hk, ar]
      · rw [tick_not_reached now ht hle] at h
        simp at h

end Countdown

/-!  Helper lemmas about the session controller.  -/

namespace Controller

theorem workTick_eq_none {ex : Exercise} {now : Int} {s : ControllerState}
    (h : (Countdown.tick now s.workTimer).2 = none) :
    workTick ex now s
      = ({ s with workTimer := (Countdown.tick now s.workTimer).1 }, []) := by
  unfold workTick
  rw [h]

theorem workTick_eq_some {ex : Exercise} {now : Int} {s : ControllerState}
    {v : Nat} (h : (Countdown.tick now s.workTimer).2 = some v) :
    workTick ex now s
      = applyWorkComplete ex now
          { s with workTimer := (Countdown.tick now s.workTimer).1 } := by
  unfold workTick
  rw [h]

theorem breakTick_eq_none {ex : Exercise} {now : Int} {s : ControllerState}
    (h : (Countdown.tick now s.breakTimer).2 = none) :
    breakTick ex now s
      = ({ s with breakTimer := (Countdown.tick now s.breakTimer).1 }, []) := by
  unfold breakTick
  rw [h]

theorem breakTick_eq_some {ex : Exercise} {now : Int} {s : ControllerState}
    {v : Nat} (h : (Countdown.tick now s.breakTimer).2 = some v) :
    breakTick ex now s
      = applyBreakComplete ex now
          { s with breakTimer := (Countdown.tick now s.breakTimer).1 } := by
  unfold breakTick
  rw [h]

/-- A work-countdown evaluation never clears a latched `breakDue`. -/
theorem workTick_keeps_breakDue {ex : Exercise} {now : Int}
    {s : ControllerState} (h : s.breakDue = true) :
    (workTick ex now s).1.breakDue = true := by
  cases he : (Countdown.tick now s.workTimer).2 with
  | none => rw [workTick_eq_none he]; exact h
  | some v =>
      rw [workTick_eq_some he]
      rfl

/-- `stopWorkTimer` never touches the break timer: the work-complete
callback only writes `breakDue`, the events and the work timer. -/
theorem stopWorkTimer_breakTimer (ex : Exercise) (now : Int)
    (s : ControllerState) :
    (stopWorkTimer ex now s).1.breakTimer = s.breakTimer := by
  unfold stopWorkTimer
  split <;> rfl

theorem stopWorkTimer_phase (ex : Exercise) (now : Int)
    (s : ControllerState) :
    (stopWorkTimer ex now s).1.phase = s.phase := by
  unfold stopWorkTimer
  split <;> rfl

/-- Whatever the stop's initial tick did, the stopped timer itself ends
not running with no target (a re-entrant restart by the callback is
squashed by the remaining stop statements). -/
theorem stopWorkTimer_workTimer_stopped (ex : Exercise) (now : Int)
    (s : ControllerState) :
    (stopWorkTimer ex now s).1.workTimer.isRunning = false ∧
    (stopWorkTimer ex now s).1.workTimer.target = none := by
  unfold stopWorkTimer
  split <;> exact ⟨by simp, by simp⟩

theorem stopWorkTimer_admin (ex : Exercise) (now : Int)
    (s : ControllerState) :
    (stopWorkTimer ex now s).1.sessionStored = s.sessionStored ∧
    (stopWorkTimer ex now s).1.hydrated = s.hydrated := by
  unfold stopWorkTimer
  split <;> exact ⟨rfl, rfl⟩

theorem stopWorkTimer_breakDue_of_none {ex : Exercise} {now : Int}
    {s : ControllerState} (h : (Countdown.tick now s.workTimer).2 = none) :
    (stopWorkTimer ex now s).1.breakDue = s.breakDue := by
  unfold stopWorkTimer
  rw [h]

theorem stopWorkTimer_breakDue_of_some {ex : Exercise} {now : Int}
    {s : ControllerState} {v : Nat}
    (h : (Countdown.tick now s.workTimer).2 = some v) :
    (stopWorkTimer ex now s).1.breakDue = true := by
  unfold stopWorkTimer
  rw [h]
  rfl

theorem stopBreakTimer_of_none {ex : Exercise} {now : Int}
    {s : ControllerState} (h : (Countdown.tick now s.breakTimer).2 = none) :
    stopBreakTimer ex now s
      = ({ s with breakTimer :=
            Countdown.stopAfterTick now (Countdown.tick now s.breakTimer).1 },
          []) := by
  unfold stopBreakTimer
  rw [h]

theorem stopBreakTimer_breakTimer_stopped (ex : Exercise) (now : Int)
    (s : ControllerState) :
    (stopBreakTimer ex now s).1.breakTimer.isRunning = false ∧
    (stopBreakTimer ex now s).1.breakTimer.target = none := by
  unfold stopBreakTimer
  split <;> exact ⟨by simp, by simp⟩

theorem stopBreakTimer_admin (ex : Exercise) (now : Int)
    (s : ControllerState) :
    (stopBreakTimer ex now s).1.sessionStored = s.sessionStored ∧
    (stopBreakTimer ex now s).1.hydrated = s.hydrated := by
  unfold stopBreakTimer
  split <;> exact ⟨rfl, rfl⟩

/-- The config-reset effect always ends with the break timer stopped
(the break-stop is its last stop, and the break-complete callback it can
fire only resets the break timer further). -/
theorem configReset_breakTimer_stopped (ex : Exercise) (now : Int)
    (s : ControllerState) :
    (configReset ex now s).1.breakTimer.isRunning = false :=
  (stopBreakTimer_breakTimer_stopped ex now
    (stopWorkTimer ex now { s with hydrated := false }).1).1

/-- When the break timer carries no expired target into the config-reset
effect, no break-complete callback fires and the work timer also ends
stopped. -/
theorem configReset_workTimer_of_no_break_event (ex : Exercise) (now : Int)
    (s : ControllerState)
    (hbt : ∀ T, s.breakTimer.target = some T → now < T) :
    (configReset ex now s).1.workTimer.isRunning = false := by
  have hb : (Countdown.tick now
      (stopWorkTimer ex now { s with hydrated := false }).1.breakTimer).2
      = none := by
    rw [stopWorkTimer_breakTimer]
    exact Countdown.tick_event_none_of_future now hbt
  show ((stopBreakTimer ex now
      (stopWorkTimer ex now { s with hydrated := false }).1).1).workTimer.isRunning
      = false
  rw [stopBreakTimer_of_none hb]
  exact (stopWorkTimer_workTimer_stopped ex now
    { s with hydrated := false }).1

@[simp] theorem applyBreakDueField_phase (r : HydrationRecord)
    (s : ControllerState) : (applyBreakDueField r s).phase = s.phase := by
  unfold applyBreakDueField
  split <;> rfl

theorem applyPhaseField_phase_of {r : HydrationRecord} {p : String}
    (s : ControllerState) (hp : r.phase = some p) (hne : p ≠ "") :
    (applyPhaseField r s).phase = p := by
  unfold applyPhaseField
  rw [hp]
  simp [hne]

theorem applyResume_no_resume {ex : Exercise} {now : Int}
    {r : HydrationRecord} {s : ControllerState}
    (h1 : ¬ (r.phase = some "work" ∧ r.workRunning = some true))
    (h2 : ¬ (r.phase = some "break" ∧ r.breakRunning = some true)) :
    applyResume ex now r s = s := by
  unfold applyResume
  rw [if_neg h1, if_neg h2]

/-- Any single non-hydration operation leaves the stored composite
record untouched and the controller un-hydrated, as long as hydration
has not yet run. -/
theorem applyOp_no_hydrate_keeps (ex : Exercise) (op : COp)
    (s : ControllerState) (hnh : ∀ n r, op ≠ COp.opHydrate n r)
    (h : s.hydrated = false) :
    (applyOp ex s op).sessionStored = s.sessionStored ∧
    (applyOp ex s op).hydrated = false := by
  cases op with
  | opStartExercise now =>
      obtain ⟨h1, h2⟩ := stopBreakTimer_admin ex now s
      exact ⟨h1, h2.trans h⟩
  | opStartBreak now =>
      show (startBreak ex now s).1.sessionStored = s.sessionStored ∧
        (startBreak ex now s).1.hydrated = false
      unfold startBreak
      split
      · exact ⟨rfl, h⟩
      · obtain ⟨h1, h2⟩ :=
          stopWorkTimer_admin ex now { s with phase := "break", breakDue := false }
        exact ⟨h1, h2.trans h⟩
  | opPause now =>
      show (pause ex now s).1.sessionStored = s.sessionStored ∧
        (pause ex now s).1.hydrated = false
      unfold pause
      split
      · exact ⟨rfl, h⟩
      · obtain ⟨h1, h2⟩ := stopWorkTimer_admin ex now s
        exact ⟨h1, h2.trans h⟩
  | opReset now =>
      obtain ⟨h1, h2⟩ := stopWorkTimer_admin ex now s
      obtain ⟨h3, h4⟩ := stopBreakTimer_admin ex now (stopWorkTimer ex now s).1
      exact ⟨h3.trans h1, (h4.trans h2).trans h⟩
  | opHydrate now record => exact absurd rfl (hnh now record)
  | opWorkTick now =>
      show (workTick ex now s).1.sessionStored = s.sessionStored ∧
        (workTick ex now s).1.hydrated = false
      cases he : (Countdown.tick now s.workTimer).2 with
      | none => rw [workTick_eq_none he]; exact ⟨rfl, h⟩
      | some v => rw [workTick_eq_some he]; exact ⟨rfl, h⟩
  | opBreakTick now =>
      show (breakTick ex now s).1.sessionStored = s.sessionStored ∧
        (breakTick ex now s).1.hydrated = false
      cases he : (Countdown.tick now s.breakTimer).2 with
      | none => rw [breakTick_eq_none he]; exact ⟨rfl, h⟩
      | some v => rw [breakTick_eq_some he]; exact ⟨rfl, h⟩
  | opPersist =>
      show (persistStep s).sessionStored = s.sessionStored ∧
        (persistStep s).hydrated = false
      unfold persistStep
      rw [if_neg (by simp [h])]
      exact ⟨rfl, h⟩

/-- Running any hydration-free operation sequence from an un-hydrated
state leaves the stored composite record untouched. -/
theorem runOps_no_hydrate_keeps (ex : Exercise) (ops : List COp)
    (s : ControllerState) (hnh : ∀ n r, COp.opHydrate n r ∉ ops)
    (h : s.hydrated = false) :
    (runOps ex s ops).sessionStored = s.sessionStored ∧
    (runOps ex s ops).hydrated = false := by
  induction ops generalizing s with
  | nil => exact ⟨rfl, h⟩
  | cons op ops ih =>
      have hop : ∀ n r, op ≠ COp.opHydrate n r := by
        intro n r he
        exact hnh n r (by rw [he]; exact List.mem_cons_self _ _)
      obtain ⟨h1, h2⟩ := applyOp_no_hydrate_keeps ex op s hop h
      obtain ⟨h3, h4⟩ :=
        ih (applyOp ex s op) (fun n r hm => hnh n r (List.mem_cons_of_mem _ hm)) h2
      exact ⟨h3.trans h1, h4⟩

end Controller

/-!  Claim theorems. -/

/-- C1: for every duration `d ≥ 0`, calling `start(d)` and then letting
the countdown tick until the target timestamp has passed invokes the
completion callback exactly once for that run, with `remainingSeconds`
equal to `0` at the moment of invocation, and no tick after completion
fires the callback again: the full event trace of the run (the event of
`start`'s own synchronous tick followed by the events of all later
ticks) is exactly `[0]`. -/
theorem countdown_run_completes_exactly_once (d now : Int)
    (s0 : CountdownState) (ts : List Int) (hd : 0 ≤ d)
    (hex : ∃ t ∈ ts, now + d * 1000 ≤ t) :
    (Countdown.start now (some d) s0).2.toList
      ++ (Countdown.runTicks (Countdown.start now (some d) s0).1 ts).2
      = [0] := by
  have hcast : ((toPositiveInteger d : Nat) : Int) = d := by
    simp only [toPositiveInteger]
    omega
  rw [Countdown.start_some_eq]
  rcases Nat.eq_zero_or_pos (toPositiveInteger d) with h0 | hpos
  · rw [h0]
    obtain ⟨h2, h1, _⟩ := Countdown.startD_of_zero now s0
    rw [h2, Countdown.runTicks_target_none ts h1]
    rfl
  · obtain ⟨h2, h1, _, _, _⟩ :=
      Countdown.startD_of_pos now (toPositiveInteger d) s0 hpos
    rw [h2]
    simp only [Option.toList_none, List.nil_append]
    apply Countdown.runTicks_events_of_reached ts _ h1
    rcases hex with ⟨t, ht, hle⟩
    refine ⟨t, ht, ?_⟩
    rw [hcast]
    exact hle

/-- Witness for C1: a 2-second countdown started at `now = 0`, ticking at
1000 ms and 2500 ms, fires exactly one completion event carrying 0. -/
theorem countdown_run_completes_exactly_once_witness :
    (0 : Int) ≤ 2 ∧ (∃ t ∈ [(1000 : Int), 2500], (0 : Int) + 2 * 1000 ≤ t) ∧
    (Countdown.start 0 (some 2) sampleFresh).2.toList
      ++ (Countdown.runTicks (Countdown.start 0 (some 2) sampleFresh).1
            [1000, 2500]).2
      = [0] :=
  ⟨by norm_num, ⟨2500, by norm_num, by norm_num⟩,
    countdown_run_completes_exactly_once 2 0 sampleFresh [1000, 2500]
      (by norm_num) ⟨2500, by norm_num, by norm_num⟩⟩

/-- C2 (amended): while the countdown is running (target non-null), every
tick sets `remainingSeconds` to `max(0, ceil((target - now)/1000))` — a
non-negative integer — but does not clamp it to `durationSeconds`; the
value is bounded by the configured duration only when
`target - now ≤ duration * 1000` (in particular whenever the clock has
not moved backwards past the instant `start` computed the target). -/
theorem tick_remaining_formula (now T : Int) (s : CountdownState)
    (h : s.target = some T) :
    (Countdown.tick now s).1.remaining = remainingFrom T now ∧
    (T - now ≤ (s.duration : Int) * 1000 →
      (Countdown.tick now s).1.remaining ≤ s.duration) := by
  have hrem : (Countdown.tick now s).1.remaining = remainingFrom T now := by
    by_cases hle : T ≤ now
    · unfold Countdown.tick
      rw [h]
      simp only [hle, if_pos]
      cases hk : s.hasKey <;> cases ar : s.autoRestart <;>
        simp [Countdown.persistState, hk, ar]
    · rw [Countdown.tick_not_reached now h hle]
  refine ⟨hrem, fun hb => ?_⟩
  rw [hrem]
  unfold remainingFrom
  split <;> omega

/-- Witness for C2 (amended): a 5-second countdown with target 5000 ms,
ticked at 2500 ms, shows remaining `ceil(2500/1000) = 3 ≤ 5`. -/
theorem tick_remaining_formula_witness :
    sampleResumed.target = some 5000 ∧
    (Countdown.tick 2500 sampleResumed).1.remaining = remainingFrom 5000 2500 ∧
    ((5000 : Int) - 2500 ≤ (sampleResumed.duration : Int) * 1000 →
      (Countdown.tick 2500 sampleResumed).1.remaining ≤ sampleResumed.duration) :=
  ⟨by decide,
    (tick_remaining_formula 2500 5000 sampleResumed (by decide)).1,
    (tick_remaining_formula 2500 5000 sampleResumed (by decide)).2⟩

/-- C2 counterexample: resuming the 5-second configuration against a
stale persisted target 15 s away, the very first tick sets
`remainingSeconds` to 15, exceeding the configured duration 5 — `tick`
applies no upper clamp. -/
theorem tick_exceeds_duration_counterexample :
    sampleStale.duration = 5 ∧
    sampleStale.target = some 15000 ∧
    sampleStale.isRunning = true ∧
    (Countdown.tick 0 sampleStale).1.remaining = 15 ∧
    ¬ (Countdown.tick 0 sampleStale).1.remaining ≤ sampleStale.duration := by
  decide

/-- C9: `stop()` is idempotent — for every countdown state (and a fixed
clock value), stopping a second time in a row reproduces exactly the
state of the first stop, including the persisted records, and the second
stop fires no completion event (its initial tick is a no-op on the
cleared target). -/
theorem stop_idempotent (now : Int) (s : CountdownState) :
    Countdown.stop now (Countdown.stop now s).1
      = ((Countdown.stop now s).1, none) := by
  obtain ⟨dur, tgt, rem, run, ia, rp, ar, hk, ss, sm⟩ := s
  cases tgt with
  | none =>
      cases hk <;>
        simp [Countdown.stop, Countdown.stopAfterTick, Countdown.tick,
          Countdown.persistState]
  | some T =>
      by_cases hle : T ≤ now <;> cases hk <;> cases ar <;>
        simp [Countdown.stop, Countdown.stopAfterTick, Countdown.tick,
          Countdown.persistState, hle]

/-- C7 (amended): constructed from storage holding a remaining-seconds
value and a meta record without a target timestamp, the countdown adopts
`remainingSeconds = min(persisted value, configured duration)`, and its
`isRunning` equals the persisted `isRunning` flag (`false` when no meta
record exists) — it resumes idle only when that flag is false, not
regardless of it. -/
theorem resume_without_target (now dIn : Int) (sec : Nat)
    (meta : Option PersistedCountdownMeta) (auto hasKey : Bool)
    (h : meta.bind (·.targetTimestamp) = none) :
    (initCountdown now dIn (some sec) meta auto hasKey).remaining
      = min sec (toPositiveInteger dIn) ∧
    (initCountdown now dIn (some sec) meta auto hasKey).isRunning
      = (meta.map (·.isRunning)).getD false := by
  cases meta with
  | none =>
      simp [initCountdown, computeInitialRemaining, initialIsRunning,
        truthyTarget]
  | some m =>
      cases hm : m.targetTimestamp with
      | none =>
          simp [initCountdown, computeInitialRemaining, initialIsRunning,
            truthyTarget, hm]
      | some t => simp [hm] at h

/-- Witness for C7 (amended): persisted 3 s, no target, persisted flag
false, configured duration 10 — resumes idle at 3 s. -/
theorem resume_without_target_witness :
    ((some (⟨none, false, 0⟩ : PersistedCountdownMeta)).bind
        (·.targetTimestamp) = none) ∧
    (initCountdown 0 10 (some 3) (some ⟨none, false, 0⟩) false true).remaining
      = min 3 (toPositiveInteger 10) ∧
    (initCountdown 0 10 (some 3) (some ⟨none, false, 0⟩) false true).isRunning
      = ((some (⟨none, false, 0⟩ : PersistedCountdownMeta)).map
          (·.isRunning)).getD false :=
  ⟨by decide,
    (resume_without_target 0 10 3 (some ⟨none, false, 0⟩) false true
      (by decide)).1,
    (resume_without_target 0 10 3 (some ⟨none, false, 0⟩) false true
      (by decide)).2⟩

/-- C7 counterexample: a meta record with no target timestamp but
persisted `isRunning = true` makes the countdown resume with
`isRunning = true` — not idle, contrary to the claim's "regardless of the
persisted isRunning flag". -/
theorem resume_without_target_counterexample :
    (initCountdown 0 10 (some 3) (some ⟨none, true, 0⟩) false true).remaining
      = 3 ∧
    (initCountdown 0 10 (some 3) (some ⟨none, true, 0⟩) false true).isRunning
      = true := by
  decide

/-- C5 (amended): `readCountdownSnapshot` returns the same
`remainingSeconds` and `isRunning` a freshly constructed countdown with
the same storage contents and the same configured duration adopts,
provided the stored target timestamp is not the JavaScript-falsy value
`0`, and provided any meta record lacking a target has
`isRunning = false`; it performs no storage writes.  (Outside those
provisos the two disagree: the constructor's truthiness test ignores a
`0` target and honours the persisted `isRunning` flag when the target is
absent, while the snapshot reader does neither.) -/
theorem snapshot_agrees_with_resume (now fallback : Int) (sec : Option Nat)
    (meta : Option PersistedCountdownMeta) (auto hasKey : Bool)
    (hz : ∀ m, meta = some m → m.targetTimestamp ≠ some 0)
    (hr : ∀ m, meta = some m → m.targetTimestamp = none → m.isRunning = false) :
    (readCountdownSnapshot now sec meta fallback).remainingSeconds
      = (initCountdown now fallback sec meta auto hasKey).remaining ∧
    (readCountdownSnapshot now sec meta fallback).isRunning
      = (initCountdown now fallback sec meta auto hasKey).isRunning := by
  cases meta with
  | none =>
      cases sec <;>
        simp [readCountdownSnapshot, initCountdown, computeInitialRemaining,
          initialIsRunning, truthyTarget]
  | some m =>
      cases hm : m.targetTimestamp with
      | none =>
          have hrun := hr m rfl hm
          cases sec <;>
            simp [readCountdownSnapshot, initCountdown,
              computeInitialRemaining, initialIsRunning, truthyTarget, hm,
              hrun]
      | some t =>
          have ht : t ≠ 0 := fun h0 => hz m rfl (h0 ▸ hm)
          by_cases hle : t ≤ now
          · simp [readCountdownSnapshot, initCountdown,
              computeInitialRemaining, initialIsRunning, truthyTarget, hm, ht,
              hle, not_lt.mpr hle]
          · simp [readCountdownSnapshot, initCountdown,
              computeInitialRemaining, initialIsRunning, truthyTarget, hm, ht,
              hle, lt_of_not_le hle]

/-- Witness for C5 (amended): a live persisted run (target 7000 ms,
running) read at `now = 0` against fallback duration 10. -/
theorem snapshot_agrees_with_resume_witness :
    (∀ m, some (⟨some 7000, true, 0⟩ : PersistedCountdownMeta) = some m →
      m.targetTimestamp ≠ some 0) ∧
    (readCountdownSnapshot 0 (some 3) (some ⟨some 7000, true, 0⟩) 10).remainingSeconds
      = (initCountdown 0 10 (some 3) (some ⟨some 7000, true, 0⟩) false true).remaining ∧
    (readCountdownSnapshot 0 (some 3) (some ⟨some 7000, true, 0⟩) 10).isRunning
      = (initCountdown 0 10 (some 3) (some ⟨some 7000, true, 0⟩) false true).isRunning :=
  ⟨by decide,
    (snapshot_agrees_with_resume 0 10 (some 3) (some ⟨some 7000, true, 0⟩)
      false true (by decide) (by decide)).1,
    (snapshot_agrees_with_resume 0 10 (some 3) (some ⟨some 7000, true, 0⟩)
      false true (by decide) (by decide)).2⟩

/-- C5 counterexample: on a meta record with no target timestamp but
persisted `isRunning = true`, the snapshot reader reports
`isRunning = false` while a freshly constructed countdown over the same
storage adopts `isRunning = true` — the two resume logics differ. -/
theorem snapshot_vs_resume_counterexample :
    (readCountdownSnapshot 0 (some 3) (some ⟨none, true, 5⟩) 10).isRunning
      = false ∧
    (initCountdown 0 10 (some 3) (some ⟨none, true, 5⟩) false true).isRunning
      = true := by
  decide

/-- C3: when the work countdown completes while the session is in phase
`work`, the controller keeps the phase `work`, latches `breakDue`,
emits the break-due notification (and the focus-complete sound when
audio is enabled), and restarts the work countdown at the full
configured work duration; moreover no work-countdown evaluation ever
clears a latched `breakDue`, so it stays true across subsequent
work-countdown completions. -/
theorem work_completion_latches_break_due (ex : Exercise) (now T : Int)
    (s : ControllerState) (hph : s.phase = "work")
    (ht : s.workTimer.target = some T) (hle : T ≤ now)
    (hw : 0 < toPositiveInteger ex.workDurationSeconds) :
    (Controller.workTick ex now s).1.phase = "work" ∧
    (Controller.workTick ex now s).1.breakDue = true ∧
    (Controller.workTick ex now s).2
      = CEvent.notified ::
          (if s.audioEnabled then [CEvent.soundFocus] else []) ∧
    (Controller.workTick ex now s).1.workTimer.isRunning = true ∧
    (Controller.workTick ex now s).1.workTimer.target
      = some (now + (toPositiveInteger ex.workDurationSeconds : Int) * 1000) ∧
    (Controller.workTick ex now s).1.workTimer.duration
      = toPositiveInteger ex.workDurationSeconds ∧
    (Controller.workTick ex now s).1.workTimer.remaining
      = toPositiveInteger ex.workDurationSeconds ∧
    (∀ s2 : ControllerState, s2.breakDue = true →
      ∀ n : Int, (Controller.workTick ex n s2).1.breakDue = true) := by
  obtain ⟨he, _⟩ := Countdown.tick_reached now ht hle
  rw [Controller.workTick_eq_some he]
  have hS :=
    Countdown.startD_of_pos now (toPositiveInteger ex.workDurationSeconds)
      ((Countdown.tick now s.workTimer).1) hw
  exact ⟨hph, rfl, rfl, hS.2.2.1, hS.2.1, hS.2.2.2.1, hS.2.2.2.2,
    fun s2 h2 n => Controller.workTick_keeps_breakDue h2⟩

/-- Witness for C3: the 2-second work countdown of `sampleWorking`
completes at 2000 ms, latching `breakDue` while the phase stays
`work`. -/
theorem work_completion_latches_break_due_witness :
    sampleWorking.phase = "work" ∧
    sampleWorking.workTimer.target = some 2000 ∧
    (Controller.workTick sampleExercise 2000 sampleWorking).1.phase
      = "work" ∧
    (Controller.workTick sampleExercise 2000 sampleWorking).1.breakDue
      = true ∧
    (Controller.workTick sampleExercise 2000 sampleWorking).1.workTimer.remaining
      = toPositiveInteger sampleExercise.workDurationSeconds :=
  ⟨by decide, by decide,
    (work_completion_latches_break_due sampleExercise 2000 2000 sampleWorking
      (by decide) (by decide) (by decide) (by decide)).1,
    (work_completion_latches_break_due sampleExercise 2000 2000 sampleWorking
      (by decide) (by decide) (by decide) (by decide)).2.1,
    (work_completion_latches_break_due sampleExercise 2000 2000 sampleWorking
      (by decide) (by decide) (by decide) (by decide)).2.2.2.2.2.2.1⟩

/-- C4 (code bug): the invariant "at most one of the two countdowns is
running" — stated by the claim and by the spec's data model — is
violated by the program.  Remounting at `now = 10000` over a persisted
break meta record whose target (5000) has already passed, the
config-reset effect's `stopBreakTimer` fires the break-complete
callback, whose `startWorkTimer` leaves the work countdown running;
hydration of the composite record `{phase: 'break', breakRunning: true,
breakSeconds: 5}` then resumes the break countdown without stopping
work: both countdowns end up running.  This theorem evaluates the model
at that failing input. -/
theorem both_countdowns_running_after_rehydration :
    mountedStale.workTimer.isRunning = true ∧
    mountedStale.breakTimer.isRunning = true ∧
    mountedStale.phase = "break" := by
  decide

/-- C6 (amended): `startBreak()` is a no-op only when the phase is
`idle`; in every other phase — `work` and `break` alike — it switches to
phase `break`, stops and resets the work countdown to the full work
duration, and resets and starts the break countdown at the full break
duration (in phase `break` it therefore restarts an in-progress break
rather than being a no-op).  It clears `breakDue` — unless the work
countdown's target has already passed un-observed at the moment of the
call, in which case the work-complete callback fires inside
`stopWorkTimer` and its `setBreakDue(true)` lands after `startBreak`'s
`setBreakDue(false)`: `breakDue` ends true exactly when that completion
fires. -/
theorem startBreak_behaviour (ex : Exercise) (now : Int)
    (s : ControllerState)
    (hpos : 0 < toPositiveInteger ex.breakDurationSeconds) :
    (s.phase = "idle" → Controller.startBreak ex now s = (s, [])) ∧
    (s.phase ≠ "idle" →
      (Controller.startBreak ex now s).1.phase = "break" ∧
      (Controller.startBreak ex now s).1.breakDue
        = ((Countdown.tick now s.workTimer).2).isSome ∧
      (Controller.startBreak ex now s).1.workTimer.isRunning = false ∧
      (Controller.startBreak ex now s).1.workTimer.remaining
        = toPositiveInteger ex.workDurationSeconds ∧
      (Controller.startBreak ex now s).1.breakTimer.isRunning = true ∧
      (Controller.startBreak ex now s).1.breakTimer.remaining
        = toPositiveInteger ex.breakDurationSeconds ∧
      (Controller.startBreak ex now s).1.breakTimer.target
        = some (now + (toPositiveInteger ex.breakDurationSeconds : Int) * 1000)) := by
  unfold Controller.startBreak
  split
  · next hidle => exact ⟨fun _ => rfl, fun hn => absurd hidle hn⟩
  · next hnot =>
      refine ⟨fun hidle => absurd hidle hnot, fun _ => ?_⟩
      have hS :=
        Countdown.startD_of_pos now (toPositiveInteger ex.breakDurationSeconds)
          (Countdown.reset now (some ex.breakDurationSeconds)
            (Controller.stopWorkTimer ex now
              { s with phase := "break", breakDue := false }).1.breakTimer)
          hpos
      refine ⟨?_, ?_, by simp, by simp, hS.2.2.1, hS.2.2.2.2, hS.2.1⟩
      · exact Controller.stopWorkTimer_phase ex now
          { s with phase := "break", breakDue := false }
      · cases he : (Countdown.tick now s.workTimer).2 with
        | none =>
            exact Controller.stopWorkTimer_breakDue_of_none
              (s := { s with phase := "break", breakDue := false }) he
        | some v =>
            exact Controller.stopWorkTimer_breakDue_of_some
              (s := { s with phase := "break", breakDue := false }) he

/-- Witness for C6 (amended): `startBreak` leaves the idle
`sampleController` unchanged, and on the mid-break `sampleMidBreak`
(whose work timer has no pending expired target, so no completion fires)
it clears `breakDue` and restarts the break countdown at the full
10 s. -/
theorem startBreak_behaviour_witness :
    (Controller.startBreak sampleExercise 0 sampleController
      = (sampleController, [])) ∧
    (Controller.startBreak exerciseB 7000 sampleMidBreak).1.phase
      = "break" ∧
    (Controller.startBreak exerciseB 7000 sampleMidBreak).1.breakDue
      = ((Countdown.tick 7000 sampleMidBreak.workTimer).2).isSome ∧
    (Controller.startBreak exerciseB 7000 sampleMidBreak).1.breakTimer.remaining
      = toPositiveInteger exerciseB.breakDurationSeconds :=
  ⟨(startBreak_behaviour sampleExercise 0 sampleController (by decide)).1
      (by decide),
    ((startBreak_behaviour exerciseB 7000 sampleMidBreak (by decide)).2
      (by decide)).1,
    ((startBreak_behaviour exerciseB 7000 sampleMidBreak (by decide)).2
      (by decide)).2.1,
    ((startBreak_behaviour exerciseB 7000 sampleMidBreak (by decide)).2
      (by decide)).2.2.2.2.2.1⟩

/-- C6 counterexample: in phase `break` with 3 s left on the break
countdown, `startBreak()` is not a no-op — it restarts the break
countdown at the full 10 s, changing the observable state. -/
theorem startBreak_in_break_not_noop :
    sampleMidBreak.phase = "break" ∧
    sampleMidBreak.breakTimer.remaining = 3 ∧
    (Controller.startBreak exerciseB 7000 sampleMidBreak).1.breakTimer.remaining
      = 10 ∧
    (Controller.startBreak exerciseB 7000 sampleMidBreak).1 ≠ sampleMidBreak := by
  decide

/-- C8 (amended): rehydration treats an absent or unparseable composite
record as absence of prior state — the controller ends at phase `idle`
with `breakDue = false`, the break countdown not running, and (provided
the break countdown carries no already-expired target into the mount
reset, whose `stopBreakTimer` would otherwise fire the break-complete
callback and leave the work countdown running) the work countdown not
running either; no error propagates.  A record that parses, however
malformed its contents, is instead applied field-wise without
validation: in particular a truthy phase string is adopted verbatim —
even outside `idle`/`work`/`break` — whenever no resume branch fires. -/
theorem hydrate_malformed_behaviour (ex : Exercise) (now : Int)
    (s : ControllerState)
    (hbt : ∀ T, s.breakTimer.target = some T → now < T) :
    (Controller.hydrate ex now none s).1.phase = "idle" ∧
    (Controller.hydrate ex now none s).1.breakDue = false ∧
    (Controller.hydrate ex now none s).1.workTimer.isRunning = false ∧
    (Controller.hydrate ex now none s).1.breakTimer.isRunning = false ∧
    (∀ (r : HydrationRecord) (p : String), r.phase = some p → p ≠ "" →
      r.workRunning ≠ some true → r.breakRunning ≠ some true →
      (Controller.hydrate ex now (some r) s).1.phase = p) := by
  refine ⟨rfl, rfl,
    Controller.configReset_workTimer_of_no_break_event ex now s hbt,
    Controller.configReset_breakTimer_stopped ex now s, ?_⟩
  intro r p hp hne hwr hbr
  show ({ Controller.applyResume ex now r
      (Controller.applyBreakDueField r
        (Controller.applyPhaseField r (Controller.configReset ex now s).1))
      with hydrated := true } : ControllerState).phase = p
  rw [Controller.applyResume_no_resume (fun hc => hwr hc.2)
    (fun hc => hbr hc.2)]
  show (Controller.applyBreakDueField r
      (Controller.applyPhaseField r (Controller.configReset ex now s).1)).phase
      = p
  rw [Controller.applyBreakDueField_phase]
  exact Controller.applyPhaseField_phase_of _ hp hne

/-- Witness for C8 (amended): an absent/unparseable record over empty
storage (no expired target) yields the fresh idle state with neither
countdown running, and the out-of-range phase string `"stretching"` in a
parseable record is adopted verbatim. -/
theorem hydrate_malformed_behaviour_witness :
    (Controller.hydrate sampleExercise 0 none sampleController).1.phase
      = "idle" ∧
    (Controller.hydrate sampleExercise 0 none
        sampleController).1.workTimer.isRunning = false ∧
    (Controller.hydrate sampleExercise 0
        (some ⟨some "stretching", none, none, none, none, none⟩)
        sampleController).1.phase = "stretching" :=
  ⟨(hydrate_malformed_behaviour sampleExercise 0 sampleController
      (by intro T hT
          rw [show sampleController.breakTimer.target = none from by decide]
            at hT
          exact Option.noConfusion hT)).1,
    (hydrate_malformed_behaviour sampleExercise 0 sampleController
      (by intro T hT
          rw [show sampleController.breakTimer.target = none from by decide]
            at hT
          exact Option.noConfusion hT)).2.2.1,
    (hydrate_malformed_behaviour sampleExercise 0 sampleController
      (by intro T hT
          rw [show sampleController.breakTimer.target = none from by decide]
            at hT
          exact Option.noConfusion hT)).2.2.2.2
      ⟨some "stretching", none, none, none, none, none⟩ "stretching" rfl
      (by decide) (by decide) (by decide)⟩

/-- C8 counterexample: the parseable composite record
`{"breakDue": true}` has missing fields, yet rehydration adopts its
`breakDue` field instead of treating the record as absence of prior
state: the controller ends with `breakDue = true`, not the fresh
`breakDue = false` the claim demands. -/
theorem hydrate_partial_record_counterexample :
    (Controller.hydrate exerciseB 0 (some sampleBadRecord)
        controllerB).1.phase = "idle" ∧
    (Controller.hydrate exerciseB 0 (some sampleBadRecord)
        controllerB).1.breakDue = true := by
  decide

/-- C10: the session controller never writes the composite session
record before rehydration has completed: from the mounted initial state,
as long as no hydration step has run, every operation — the persist
effect included — leaves the stored composite record untouched and the
controller un-hydrated; and the hydration step always finishes (sets the
hydrated flag), including on its failure path (`record = none`). -/
theorem persist_noop_before_hydration (now0 : Int) (ex : Exercise)
    (a : Bool) (ws : Option Nat) (wm : Option PersistedCountdownMeta)
    (bs : Option Nat) (bm : Option PersistedCountdownMeta)
    (ss : Option PersistedExerciseState) (ops : List COp)
    (hnh : ∀ n r, COp.opHydrate n r ∉ ops) :
    (Controller.runOps ex
        (Controller.initController now0 ex a ws wm bs bm ss)
        ops).sessionStored = ss ∧
    (Controller.runOps ex
        (Controller.initController now0 ex a ws wm bs bm ss)
        ops).hydrated = false ∧
    (∀ (n : Int) (record : Option HydrationRecord) (s : ControllerState),
      (Controller.hydrate ex n record s).1.hydrated = true) := by
  obtain ⟨h1, h2⟩ :=
    Controller.runOps_no_hydrate_keeps ex ops
      (Controller.initController now0 ex a ws wm bs bm ss) hnh rfl
  refine ⟨h1, h2, ?_⟩
  intro n record s
  unfold Controller.hydrate Controller.hydrateBody
  cases record <;> rfl

/-- Witness for C10: starting the exercise and then running the persist
effect, without any hydration step, leaves the stored composite record
absent and the controller un-hydrated. -/
theorem persist_noop_before_hydration_witness :
    (Controller.runOps sampleExercise
        (Controller.initController 0 sampleExercise true none none none
          none none)
        [COp.opStartExercise 0, COp.opPersist]).sessionStored = none ∧
    (Controller.runOps sampleExercise
        (Controller.initController 0 sampleExercise true none none none
          none none)
        [COp.opStartExercise 0, COp.opPersist]).hydrated = false :=
  ⟨(persist_noop_before_hydration 0 sampleExercise true none none none
      none none [COp.opStartExercise 0, COp.opPersist]
      (by intro n r hm; simp at hm)).1,
    (persist_noop_before_hydration 0 sampleExercise true none none none
      none none [COp.opStartExercise 0, COp.opPersist]
      (by intro n r hm; simp at hm)).2.1⟩

end EyeGym
